import Mathlib

/-!
Verification development for the Saino-forge build engine (`src/server.js`).

The server renders parameterized templates against JSON data into static
HTML.  We give a shallow embedding of its build engine: sandboxed path
resolution (`resolveSafePath`, server.js lines 35-40), data-source loading
and deep merging via lodash.merge (lines 142-149), template loading with
require-cache invalidation (lines 137-140, 151-152), export resolution
(line 153), render + minify (lines 155-156), output-path normalization and
writing (lines 158-165), and the batch endpoint (lines 178-205).

External collaborators (the filesystem, `require`'s module loader, React's
renderer, the html minifier) are modelled as an explicit environment
(`Env`) of fallible functions; process-wide mutable state (the require
cache and the output tree) is threaded explicitly (`SystemState`).
Machine paths are POSIX strings; the container's working directory is
`/app` (Dockerfile `WORKDIR /app`), so the storage roots are
`/app/storage/templates`, `/app/storage/data`, `/app/storage/output`.
-/

/-! ## Path model

Absolute paths are rendered as `/`-joined segment lists.  `resolveSegs`
models Node's `path.resolve` segment normalization: `..` pops one segment
(never above the root), `.` and empty segments are dropped.
-/

/-- Split a string on the `/` separator (segment accumulator in reverse). -/
def splitAux : List Char → List Char → List String
  | [], acc => [String.mk acc.reverse]
  | c :: rest, acc =>
    if c = '/' then String.mk acc.reverse :: splitAux rest []
    else splitAux rest (c :: acc)

/-- Split a path string into `/`-separated segments. -/
def splitSegs (s : String) : List String := splitAux s.data []

/-- Render an absolute path from its segments: `["app","x"] ↦ "/app/x"`. -/
def renderAbs (segs : List String) : String :=
  segs.foldl (fun acc s => acc ++ "/" ++ s) ""

/-- Model of JavaScript `String.prototype.startsWith` (the containment
check on line 38 of server.js): a plain string-prefix test. -/
def jsStartsWith (s pre : String) : Bool := pre.data.isPrefixOf s.data

/-- Model of JavaScript `String.prototype.endsWith`. -/
def jsEndsWith (s suf : String) : Bool := suf.data.isSuffixOf s.data

/-- Normalize path segments against already-resolved base segments, the
way `path.resolve` does: `..` pops, `.` and empty segments are skipped. -/
def resolveSegs : List String → List String → List String
  | acc, [] => acc
  | acc, seg :: rest =>
    if seg = ".." then resolveSegs acc.dropLast rest
    else if seg = "." ∨ seg = "" then resolveSegs acc rest
    else resolveSegs (acc ++ [seg]) rest

/-- Segments of `path.resolve(base, input)`: an absolute `input` discards
the base, a relative one is resolved against it. -/
def resolvePathSegs (base : List String) (input : String) : List String :=
  if jsStartsWith input "/" then resolveSegs [] (splitSegs input)
  else resolveSegs base (splitSegs input)

/-- Model of `path.join(a, b)` for the joins the engine performs (none of
its call sites pass `..` or `.` segments that `path.join` would collapse). -/
def joinPath (a b : String) : String :=
  if a = "" then b
  else if jsEndsWith a "/" then a ++ b
  else a ++ "/" ++ b

/-- First-occurrence replacement on character lists. -/
def replaceFirstChars : List Char → List Char → List Char → List Char
  | [], _, _ => []
  | c :: rest, pat, repl =>
    if pat.isPrefixOf (c :: rest) then repl ++ (c :: rest).drop pat.length
    else c :: replaceFirstChars rest pat repl

/-- Model of JavaScript `String.prototype.replace` with a string pattern
(line 191 of server.js): replaces only the FIRST occurrence of `pat`. -/
def replaceFirst (s pat repl : String) : String :=
  String.mk (replaceFirstChars s.data pat.data repl.data)

/-- Segments of the template root `/app/storage/templates`. -/
def STORAGE_templates : List String := ["app", "storage", "templates"]

/-- Segments of the data root `/app/storage/data`. -/
def STORAGE_data : List String := ["app", "storage", "data"]

/-- Segments of the output root `/app/storage/output`. -/
def STORAGE_output : List String := ["app", "storage", "output"]

/-- The template root as a path string (used by the cache invalidation on
line 139 of server.js). -/
def templatesRootStr : String := renderAbs STORAGE_templates

/-- The error message thrown on line 38 of server.js. -/
def securityViolationMsg : String := "Security Violation: Access Denied"

/-- server.js lines 35-40: resolve a caller-supplied path against a root
and accept it iff the resolved absolute path starts (as a string) with the
root.  The roots passed by the engine are already canonical absolute
directories, so `path.resolve(baseDir)` is the identity on them. -/
def resolveSafePath (baseSegs : List String) (userInput : String) :
    Except String String :=
  let safeBase := renderAbs baseSegs
  let resolvedPath := renderAbs (resolvePathSegs baseSegs userInput)
  if jsStartsWith resolvedPath safeBase then Except.ok resolvedPath
  else Except.error securityViolationMsg

/-! ## JSON values and lodash.merge

`JValue` models the values produced by `fs.readJson` (JSON.parse): JSON
numbers are taken as integers (every number appearing in the spec's merge
examples is one).  Objects are ordered association lists, as JS objects
are ordered; `JSON.parse` never yields duplicate keys.

`mergeVal` models `lodash.merge` (line 147-148 of server.js) on such
values: plain objects merge key-wise and recursively (target key order
kept, new source keys appended), arrays merge INDEX-wise (source entries
are merged onto the target entry at the same index, surplus target
entries are kept), and any other source value is assigned outright.
The exotic mixed cases (an array merged onto a plain object or vice
versa), which lodash handles by key-copying, are approximated by outright
assignment; no JSON data source reaching the engine's merge loop in the
claims exercises them. -/
inductive JValue where
  | null
  | bool (b : Bool)
  | num (n : Int)
  | str (s : String)
  | arr (elems : List JValue)
  | obj (fields : List (String × JValue))

/-- First-match association-list lookup (JS property access on a parsed
JSON object). -/
def lookupField : List (String × JValue) → String → Option JValue
  | [], _ => none
  | (k, v) :: rest, key => if k = key then some v else lookupField rest key

/-- Source fields whose key is absent from the target (appended last by
lodash.merge, in source order). -/
def newFields (o s : List (String × JValue)) : List (String × JValue) :=
  s.filter (fun kv => (lookupField o kv.1).isNone)

mutual

/-- lodash.merge on JSON values; see the `JValue` doc comment. -/
def mergeVal : JValue → JValue → JValue
  | .obj o, .obj s => .obj (mergeFields o s ++ newFields o s)
  | .arr o, .arr s => .arr (mergeElems o s)
  | _, s => s

/-- Merge the source object's value onto each target field in place. -/
def mergeFields :
    List (String × JValue) → List (String × JValue) → List (String × JValue)
  | [], _ => []
  | (k, v) :: rest, s =>
    (k, match lookupField s k with
        | some sv => mergeVal v sv
        | none => v) :: mergeFields rest s

/-- Index-wise array merge: source entries are merged onto the target
entry at the same index; surplus entries of either side are kept. -/
def mergeElems : List JValue → List JValue → List JValue
  | o, [] => o
  | [], s => s
  | ov :: orest, sv :: srest => mergeVal ov sv :: mergeElems orest srest

end

mutual

/-- Boolean (decidable) equality on `JValue`. -/
def beqJ : JValue → JValue → Bool
  | .null, .null => true
  | .bool a, .bool b => a = b
  | .num a, .num b => a = b
  | .str a, .str b => a = b
  | .arr a, .arr b => beqJList a b
  | .obj a, .obj b => beqJFields a b
  | _, _ => false

/-- Boolean equality on JSON arrays. -/
def beqJList : List JValue → List JValue → Bool
  | [], [] => true
  | a :: as, b :: bs => beqJ a b && beqJList as bs
  | _, _ => false

/-- Boolean equality on JSON object fields. -/
def beqJFields : List (String × JValue) → List (String × JValue) → Bool
  | [], [] => true
  | (k, v) :: as, (k', v') :: bs => k = k' && beqJ v v' && beqJFields as bs
  | _, _ => false

end

/-- JavaScript truthiness of a parsed JSON value (`content[src.key] || {}`
on line 147 of server.js): `null`, `false`, `0` and `""` are falsy. -/
def jtruthy : JValue → Bool
  | .null => false
  | .bool b => b
  | .num n => n ≠ 0
  | .str s => s ≠ ""
  | .arr _ => true
  | .obj _ => true

/-- JS property access `content[k]` on a parsed JSON value: a key lookup
on objects, `undefined` (here `none`) on everything else. -/
def jget : JValue → String → Option JValue
  | .obj fields, k => lookupField fields k
  | _, _ => none

/-- server.js line 147, `content[src.key] || {}`: the sub-object at the
key, or an empty object when the key is absent or its value is falsy. -/
def keyExtract (content : JValue) (k : String) : JValue :=
  match jget content k with
  | some v => if jtruthy v then v else JValue.obj []
  | none => JValue.obj []

/-! ## Loaded template modules

`JSVal` models the JavaScript value a template module evaluates to when
`require`d.  `func id` stands for an (opaque) renderable component
function, identified by a tag.  Export resolution (line 153 of server.js)
is `Component.default || Component.App || Component`, i.e. JS truthiness
probing, not presence probing. -/
inductive JSVal where
  | undef
  | jsNull
  | bool (b : Bool)
  | num (n : Int)
  | str (s : String)
  | func (id : Nat)
  | obj (fields : List (String × JSVal))

/-- First-match association-list lookup for module properties. -/
def lookupProp : List (String × JSVal) → String → Option JSVal
  | [], _ => none
  | (k, v) :: rest, key => if k = key then some v else lookupProp rest key

/-- JS property access on a module value: `undefined` when the property is
absent or the value is not an object. -/
def getProp : JSVal → String → JSVal
  | .obj fields, k =>
    match lookupProp fields k with
    | some v => v
    | none => JSVal.undef
  | _, _ => JSVal.undef

/-- JavaScript truthiness of a module value. -/
def truthyJS : JSVal → Bool
  | .undef => false
  | .jsNull => false
  | .bool b => b
  | .num n => n ≠ 0
  | .str s => s ≠ ""
  | .func _ => true
  | .obj _ => true

mutual

/-- Boolean equality on module values (structural). -/
def beqJS : JSVal → JSVal → Bool
  | .undef, .undef => true
  | .jsNull, .jsNull => true
  | .bool a, .bool b => a = b
  | .num a, .num b => a = b
  | .str a, .str b => a = b
  | .func a, .func b => a = b
  | .obj a, .obj b => beqJSFields a b
  | _, _ => false

/-- Boolean equality on module object fields. -/
def beqJSFields : List (String × JSVal) → List (String × JSVal) → Bool
  | [], [] => true
  | (k, v) :: as, (k', v') :: bs => k = k' && beqJS v v' && beqJSFields as bs
  | _, _ => false

end

/-- server.js line 153: `Component.default || Component.App || Component`.
JS `||` picks the first TRUTHY operand, so a falsy `default` export falls
through to `App`, and a falsy `App` falls through to the module itself. -/
def resolveApp (component : JSVal) : JSVal :=
  if truthyJS (getProp component "default") then getProp component "default"
  else if truthyJS (getProp component "App") then getProp component "App"
  else component

/-! ## The build engine

External effects are an explicit environment of fallible operations:
reading and parsing a JSON file at an absolute path (`fs.readJson`),
loading a template module fresh from disk at an absolute path (what
`require` does on a cache miss — fails when the file is missing or its
initialization throws), rendering a component with props
(`ReactDOMServer.renderToStaticMarkup` of `React.createElement`),
minifying markup (`html-minifier`), and listing a directory
(`fs.readdir`).  File writing (`fs.ensureDir` + `fs.writeFile`, lines
162-163) is modelled as a total state update on the output tree, so every
in-model failure happens before the write — matching the code, where the
write is the last pipeline step. -/
structure Env where
  dataFiles : String → Except String JValue
  templates : String → Except String JSVal
  render : JSVal → JValue → Except String String
  minify : String → Except String String
  readdir : String → Except String (List String)

/-- Process-wide mutable state: the require cache (absolute module path to
loaded module value) and the output tree (absolute file path to written
content). -/
structure SystemState where
  requireCache : List (String × JSVal)
  outputFS : String → Option String

/-- The initial process state: empty cache, empty output tree. -/
def initState : SystemState := ⟨[], fun _ => none⟩

/-- One data source of a build request: `{filename, key?}`.  A missing or
empty `filename` (falsy in JS, skipped by line 144) is `none`; likewise a
missing or empty `key` (falsy, line 147) is `none`. -/
structure DataSourceSpec where
  filename : Option String
  key : Option String

/-- First-match lookup in the require cache. -/
def lookupModule : List (String × JSVal) → String → Option JSVal
  | [], _ => none
  | (k, v) :: rest, key => if k = key then some v else lookupModule rest key

/-- server.js lines 138-140: delete every cache entry whose path starts
with the template root. -/
def invalidateTemplateCache (cache : List (String × JSVal)) :
    List (String × JSVal) :=
  cache.filter (fun kv => !(jsStartsWith kv.1 templatesRootStr))

/-- server.js line 152, `require(fullTemplatePath)`: return the cached
module if present, otherwise load it from disk and cache it. -/
def requireModule (env : Env) (cache : List (String × JSVal)) (p : String) :
    Except String (JSVal × List (String × JSVal)) :=
  match lookupModule cache p with
  | some m => Except.ok (m, cache)
  | none =>
    match env.templates p with
    | Except.error e => Except.error e
    | Except.ok m => Except.ok (m, (p, m) :: cache)

/-- Overwrite (or create) the file at `p` with content `c`. -/
def writeFS (fs : String → Option String) (p c : String) :
    String → Option String :=
  fun q => if q = p then some c else fs q

/-- server.js lines 142-149: fold the data sources into the accumulator
`finalProps`, skipping sources without a filename, sandbox-resolving each
path under the data root, reading + parsing the file, extracting the
optional key, and lodash-merging the piece into the accumulator. -/
def mergeDataSourcesGo (env : Env) :
    JValue → List DataSourceSpec → Except String JValue
  | acc, [] => Except.ok acc
  | acc, src :: rest =>
    match src.filename with
    | none => mergeDataSourcesGo env acc rest
    | some fn =>
      match resolveSafePath STORAGE_data fn with
      | Except.error e => Except.error e
      | Except.ok fullDataPath =>
        match env.dataFiles fullDataPath with
        | Except.error e => Except.error e
        | Except.ok content =>
          match src.key with
          | some k => mergeDataSourcesGo env (mergeVal acc (keyExtract content k)) rest
          | none => mergeDataSourcesGo env (mergeVal acc content) rest

/-- The data-source resolution loop started with `finalProps = {}`. -/
def mergeDataSources (env : Env) (srcs : List DataSourceSpec) :
    Except String JValue :=
  mergeDataSourcesGo env (JValue.obj []) srcs

/-- server.js lines 158-159: a relative output path not ending in `.html`
is a directory target and gets `index.html` joined inside it. -/
def normalizeOutputPath (p : String) : String :=
  if jsEndsWith p ".html" then p else joinPath p "index.html"

/-- server.js lines 136-166, `performBuild`: invalidate the template
cache, resolve and merge the data sources, sandbox-resolve and load the
template, pick the renderable export, render and minify, normalize the
output path, sandbox-resolve it under the output root, write, and return
the normalized relative path.  Any step's failure aborts the rest and
surfaces as the single error of this build. -/
def performBuild (env : Env) (st : SystemState) (templatePath : String)
    (dataSources : List DataSourceSpec) (outputRelPath : String) :
    Except String String × SystemState :=
  let cache := invalidateTemplateCache st.requireCache
  match mergeDataSources env dataSources with
  | Except.error e => (Except.error e, ⟨cache, st.outputFS⟩)
  | Except.ok finalProps =>
    match resolveSafePath STORAGE_templates templatePath with
    | Except.error e => (Except.error e, ⟨cache, st.outputFS⟩)
    | Except.ok fullTemplatePath =>
      match requireModule env cache fullTemplatePath with
      | Except.error e => (Except.error e, ⟨cache, st.outputFS⟩)
      | Except.ok (component, cache2) =>
        match env.render (resolveApp component) finalProps with
        | Except.error e => (Except.error e, ⟨cache2, st.outputFS⟩)
        | Except.ok html =>
          match env.minify html with
          | Except.error e => (Except.error e, ⟨cache2, st.outputFS⟩)
          | Except.ok minified =>
            let finalPath := normalizeOutputPath outputRelPath
            match resolveSafePath STORAGE_output finalPath with
            | Except.error e => (Except.error e, ⟨cache2, st.outputFS⟩)
            | Except.ok fullOutputPath =>
              (Except.ok finalPath,
               ⟨cache2, writeFS st.outputFS fullOutputPath minified⟩)

/-! ## The batch endpoint (server.js lines 178-205) -/

/-- One entry of the batch report: `{file, status, path?}` on success,
`{file, status, error?}` on failure. -/
structure BatchItem where
  file : String
  status : String
  path : Option String
  error : Option String

/-- The record pushed on line 195. -/
def mkSuccess (file p : String) : BatchItem := ⟨file, "success", some p, none⟩

/-- The record pushed on line 197. -/
def mkError (file e : String) : BatchItem := ⟨file, "error", none, some e⟩

/-- server.js lines 188-198, one iteration: build the file with a single
synthetic data source `{filename: dataFolder/file}` (no key) into
`outputBase/<file with its first ".json" removed>`, catching the build's
failure as a per-item error record. -/
def batchStep (env : Env) (tp df ob : String) (st : SystemState)
    (file : String) : BatchItem × SystemState :=
  let dataPath := joinPath df file
  let outputName := joinPath ob (replaceFirst file ".json" "")
  match performBuild env st tp [⟨some dataPath, none⟩] outputName with
  | (Except.ok p, st') => (mkSuccess file p, st')
  | (Except.error e, st') => (mkError file e, st')

/-- The sequential per-file loop of lines 188-199. -/
def batchLoop (env : Env) (tp df ob : String) :
    List String → SystemState → List BatchItem × SystemState
  | [], st => ([], st)
  | f :: rest, st =>
    let r := batchStep env tp df ob st f
    let rs := batchLoop env tp df ob rest r.2
    (r.1 :: rs.1, rs.2)

/-- server.js lines 178-205, the `/api/build/batch` handler body:
sandbox-resolve the data folder, list it, filter to names ending in
`.json`, and run the per-file loop.  Only a failure of the resolution or
the listing escapes to the outer catch. -/
def runBatchBuild (env : Env) (st : SystemState) (tp df ob : String) :
    Except String (List BatchItem) × SystemState :=
  match resolveSafePath STORAGE_data df with
  | Except.error e => (Except.error e, st)
  | Except.ok fullDataDir =>
    match env.readdir fullDataDir with
    | Except.error e => (Except.error e, st)
    | Except.ok files =>
      let jsonFiles := files.filter (fun f => jsEndsWith f ".json")
      let r := batchLoop env tp df ob jsonFiles st
      (Except.ok r.1, r.2)

/-- The outcome a file would get as a lone batch item started from the
initial state; by `batchStep_fst_irrel` below this is every batch item's
outcome regardless of the state it actually runs in. -/
def itemOf (env : Env) (tp df ob : String) (f : String) : BatchItem :=
  (batchStep env tp df ob initState f).1

/-! ## Concrete environments used by witnesses and counterexamples -/

/-- A data tree holding the spec's merge examples as separate JSON files. -/
def envMerge : Env where
  dataFiles := fun p =>
    if p = "/app/storage/data/arr1.json" then
      Except.ok (JValue.obj [("a", JValue.arr [JValue.num 1, JValue.num 2])])
    else if p = "/app/storage/data/arr2.json" then
      Except.ok (JValue.obj [("a", JValue.arr [JValue.num 3])])
    else if p = "/app/storage/data/s1.json" then
      Except.ok (JValue.obj [("a", JValue.num 1)])
    else if p = "/app/storage/data/s2.json" then
      Except.ok (JValue.obj [("a", JValue.num 2)])
    else if p = "/app/storage/data/n1.json" then
      Except.ok (JValue.obj [("a", JValue.obj [("x", JValue.num 1)])])
    else if p = "/app/storage/data/n2.json" then
      Except.ok (JValue.obj [("a", JValue.obj [("y", JValue.num 2)])])
    else Except.error "ENOENT"
  templates := fun _ => Except.error "Cannot find module"
  render := fun _ _ => Except.error "render"
  minify := fun s => Except.ok s
  readdir := fun _ => Except.error "ENOENT"

/-- A healthy single-build environment: one template, empty data, a fixed
rendering. -/
def envOk : Env where
  dataFiles := fun _ => Except.ok (JValue.obj [])
  templates := fun p =>
    if p = "/app/storage/templates/t.jsx" then Except.ok (JSVal.func 0)
    else Except.error "Cannot find module"
  render := fun _ _ => Except.ok "<div> Hi </div>"
  minify := fun _ => Except.ok "<div>Hi</div>"
  readdir := fun _ => Except.error "ENOENT"

/-- An environment whose data tree is empty: every JSON read fails. -/
def envMissing : Env where
  dataFiles := fun _ => Except.error "ENOENT: no such file or directory"
  templates := fun _ => Except.error "Cannot find module"
  render := fun _ _ => Except.error "render"
  minify := fun s => Except.ok s
  readdir := fun _ => Except.error "ENOENT"

/-- A template that renders to the string it evaluates to: used to observe
which on-disk template version a build actually loaded. -/
def strRender : JSVal → JValue → Except String String := fun c _ =>
  match c with
  | JSVal.str s => Except.ok s
  | _ => Except.error "not a component"

/-- The template file `t.jsx` holding content V1. -/
def envV1 : Env where
  dataFiles := fun _ => Except.error "ENOENT"
  templates := fun p =>
    if p = "/app/storage/templates/t.jsx" then Except.ok (JSVal.str "V1")
    else Except.error "Cannot find module"
  render := strRender
  minify := fun s => Except.ok s
  readdir := fun _ => Except.error "ENOENT"

/-- The same process after `t.jsx` was overwritten with content V2. -/
def envV2 : Env where
  dataFiles := fun _ => Except.error "ENOENT"
  templates := fun p =>
    if p = "/app/storage/templates/t.jsx" then Except.ok (JSVal.str "V2")
    else Except.error "Cannot find module"
  render := strRender
  minify := fun s => Except.ok s
  readdir := fun _ => Except.error "ENOENT"

/-- A batch data folder holding one well-formed JSON file, one malformed
one, and one non-JSON entry. -/
def envBatch : Env where
  dataFiles := fun p =>
    if p = "/app/storage/data/batch/good.json" then
      Except.ok (JValue.obj [("title", JValue.str "x")])
    else if p = "/app/storage/data/batch/bad.json" then
      Except.error "Unexpected token in JSON"
    else Except.error "ENOENT"
  templates := fun p =>
    if p = "/app/storage/templates/t.jsx" then Except.ok (JSVal.func 0)
    else Except.error "Cannot find module"
  render := fun _ _ => Except.ok "<div> hi </div>"
  minify := fun _ => Except.ok "<div>hi</div>"
  readdir := fun p =>
    if p = "/app/storage/data/batch" then
      Except.ok ["good.json", "bad.json", "notes.txt"]
    else Except.error "ENOENT"

/-- A batch data folder whose one file has ".json" inside its base name as
well as at its end. -/
def envInner : Env where
  dataFiles := fun p =>
    if p = "/app/storage/data/b9/a.jsonb.json" then Except.ok (JValue.obj [])
    else Except.error "ENOENT"
  templates := fun p =>
    if p = "/app/storage/templates/t.jsx" then Except.ok (JSVal.func 0)
    else Except.error "Cannot find module"
  render := fun _ _ => Except.ok "<div> hi </div>"
  minify := fun _ => Except.ok "<div>hi</div>"
  readdir := fun p =>
    if p = "/app/storage/data/b9" then Except.ok ["a.jsonb.json"]
    else Except.error "ENOENT"

/-! ## Path lemmas -/

/-- Folding path segments from any accumulator appends their rendering. -/
theorem renderAbs_cons_init (l : List String) (init : String) :
    l.foldl (fun acc s => acc ++ "/" ++ s) init = init ++ renderAbs l := by
  induction l generalizing init with
  | nil => exact (String.append_empty init).symm
  | cons x xs ih =>
    show xs.foldl _ (init ++ "/" ++ x) = _
    rw [ih (init ++ "/" ++ x)]
    show _ = init ++ xs.foldl _ (("" : String) ++ "/" ++ x)
    rw [ih (("" : String) ++ "/" ++ x)]
    rw [String.empty_append, String.append_assoc, String.append_assoc,
      String.append_assoc]

/-- Rendering distributes over segment-list concatenation. -/
theorem renderAbs_append (a b : List String) :
    renderAbs (a ++ b) = renderAbs a ++ renderAbs b := by
  show (a ++ b).foldl _ "" = _
  rw [List.foldl_append]
  exact renderAbs_cons_init b (renderAbs a)

/-- Rendering a nonempty segment list starts with a separator. -/
theorem renderAbs_cons (x : String) (xs : List String) :
    renderAbs (x :: xs) = "/" ++ (x ++ renderAbs xs) := by
  show xs.foldl _ (("" : String) ++ "/" ++ x) = _
  rw [renderAbs_cons_init xs (("" : String) ++ "/" ++ x),
    String.empty_append, String.append_assoc]

/-- A string prefixes its own append. -/
theorem jsStartsWith_append (a b : String) : jsStartsWith (a ++ b) a = true := by
  simp [jsStartsWith, String.data_append, List.isPrefixOf_iff_prefix,
    List.prefix_append]

/-- Characterization of a successful sandbox resolution. -/
theorem resolveSafePath_ok_iff (base : List String) (input p : String) :
    resolveSafePath base input = Except.ok p ↔
      jsStartsWith (renderAbs (resolvePathSegs base input)) (renderAbs base)
          = true ∧
        p = renderAbs (resolvePathSegs base input) := by
  simp only [resolveSafePath]
  split
  · rename_i h
    simp only [h, Except.ok.injEq, true_and]
    exact eq_comm
  · rename_i h
    simp only [Bool.not_eq_true] at h
    simp [h]

/-- A successful sandbox resolution's result starts with the root string. -/
theorem resolveSafePath_ok_startsWith {base : List String} {input p : String}
    (h : resolveSafePath base input = Except.ok p) :
    jsStartsWith p (renderAbs base) = true := by
  rcases (resolveSafePath_ok_iff base input p).mp h with ⟨h1, h2⟩
  rw [h2]
  exact h1

/-! ## Cache and build lemmas -/

/-- After the invalidation of lines 138-140, no module under the template
root is cached. -/
theorem lookupModule_invalidate (cache : List (String × JSVal)) (p : String)
    (h : jsStartsWith p templatesRootStr = true) :
    lookupModule (invalidateTemplateCache cache) p = none := by
  induction cache with
  | nil => rfl
  | cons kv rest ih =>
    rcases kv with ⟨k, v⟩
    simp only [invalidateTemplateCache, List.filter_cons] at *
    split
    · rename_i hkeep
      have hne : k ≠ p := by
        intro he
        subst he
        rw [h] at hkeep
        simp at hkeep
      simp only [lookupModule, if_neg hne]
      exact ih
    · exact ih

/-- A `require` right after the invalidation always loads from disk. -/
theorem requireModule_fresh (env : Env) (cache : List (String × JSVal))
    (p : String) (h : jsStartsWith p templatesRootStr = true) :
    requireModule env (invalidateTemplateCache cache) p =
      match env.templates p with
      | Except.error e => Except.error e
      | Except.ok m => Except.ok (m, (p, m) :: invalidateTemplateCache cache) := by
  simp only [requireModule, lookupModule_invalidate cache p h]

/-- The build's outcome (success path or failure message) does not depend
on the incoming process state: the cache is invalidated before the load
and the template path always lies under the template root, so the load
never hits a stale entry; nothing else reads the state. -/
theorem performBuild_fst_irrel (env : Env) (st st' : SystemState)
    (tp : String) (ds : List DataSourceSpec) (out : String) :
    (performBuild env st tp ds out).1 = (performBuild env st' tp ds out).1 := by
  rcases hm : mergeDataSources env ds with e | props <;>
    simp only [performBuild, hm]
  rcases ht : resolveSafePath STORAGE_templates tp with e | p <;>
    simp only [ht]
  have hs : jsStartsWith p templatesRootStr = true :=
    resolveSafePath_ok_startsWith ht
  rw [requireModule_fresh env st.requireCache p hs,
    requireModule_fresh env st'.requireCache p hs]
  rcases env.templates p with e | m <;> simp only []
  rcases env.render (resolveApp m) props with e | html <;> simp only []
  rcases env.minify html with e | minified <;> simp only []
  rcases resolveSafePath STORAGE_output (normalizeOutputPath out) with e | q <;>
    simp only []

/-! ## Batch lemmas -/

/-- A batch item is the per-file single build's outcome, wrapped. -/
theorem batchStep_fst_eq (env : Env) (tp df ob : String) (st : SystemState)
    (f : String) :
    (batchStep env tp df ob st f).1 =
      match (performBuild env st tp [⟨some (joinPath df f), none⟩]
              (joinPath ob (replaceFirst f ".json" ""))).1 with
      | Except.ok p => mkSuccess f p
      | Except.error e => mkError f e := by
  simp only [batchStep]
  rcases hpb : performBuild env st tp [⟨some (joinPath df f), none⟩]
      (joinPath ob (replaceFirst f ".json" "")) with ⟨r, s⟩
  cases r <;> simp [hpb]

/-- A batch item's outcome does not depend on the state it runs in. -/
theorem batchStep_fst_irrel (env : Env) (tp df ob : String)
    (st : SystemState) (f : String) :
    (batchStep env tp df ob st f).1 = itemOf env tp df ob f := by
  rw [batchStep_fst_eq, itemOf, batchStep_fst_eq,
    performBuild_fst_irrel env st initState]

/-- The batch loop records one outcome per file, in order; outcomes are
state-independent. -/
theorem batchLoop_fst (env : Env) (tp df ob : String) :
    ∀ (files : List String) (st : SystemState),
      (batchLoop env tp df ob files st).1 = files.map (itemOf env tp df ob) := by
  intro files
  induction files with
  | nil => intro st; rfl
  | cons f rest ih =>
    intro st
    simp only [batchLoop, List.map_cons]
    rw [batchStep_fst_irrel env tp df ob st f,
      ih (batchStep env tp df ob st f).2]

/-- When the data folder resolves and lists, the batch call returns one
outcome per listed `.json` name, in listing order. -/
theorem runBatchBuild_ok_fst (env : Env) (st : SystemState)
    (tp df ob dir : String) (files : List String)
    (h1 : resolveSafePath STORAGE_data df = Except.ok dir)
    (h2 : env.readdir dir = Except.ok files) :
    (runBatchBuild env st tp df ob).1 =
      Except.ok ((files.filter (fun f => jsEndsWith f ".json")).map
        (itemOf env tp df ob)) := by
  simp only [runBatchBuild, h1, h2]
  rw [batchLoop_fst]

/-- Every batch item carries the file name it was produced for. -/
theorem itemOf_file (env : Env) (tp df ob f : String) :
    (itemOf env tp df ob f).file = f := by
  rw [itemOf, batchStep_fst_eq]
  cases (performBuild env initState tp [⟨some (joinPath df f), none⟩]
      (joinPath ob (replaceFirst f ".json" ""))).1 <;> rfl

/-- Every batch item is marked either success or error. -/
theorem itemOf_status (env : Env) (tp df ob f : String) :
    (itemOf env tp df ob f).status = "success" ∨
      (itemOf env tp df ob f).status = "error" := by
  rw [itemOf, batchStep_fst_eq]
  cases (performBuild env initState tp [⟨some (joinPath df f), none⟩]
      (joinPath ob (replaceFirst f ".json" ""))).1
  · right; rfl
  · left; rfl

/-- Items whose status is binary split the length between the two counts. -/
theorem countP_status_split :
    ∀ l : List BatchItem,
      (∀ it ∈ l, it.status = "success" ∨ it.status = "error") →
      l.countP (fun it => it.status == "success") +
          l.countP (fun it => it.status == "error") = l.length := by
  intro l
  induction l with
  | nil => intro _; rfl
  | cons a rest ih =>
    intro h
    have ha := h a (List.mem_cons_self a rest)
    have hrest := fun it hit => h it (List.mem_cons_of_mem a hit)
    have hsum := ih hrest
    simp only [List.countP_cons, List.length_cons]
    rcases ha with ha | ha <;> rw [ha] <;> simp <;> omega

/-! ## Merge lemmas -/

/-- Lookup in an appended association list tries the left part first. -/
theorem lookupField_append (a b : List (String × JValue)) (k : String) :
    lookupField (a ++ b) k =
      match lookupField a k with
      | some v => some v
      | none => lookupField b k := by
  induction a with
  | nil => rfl
  | cons kv rest ih =>
    rcases kv with ⟨k', v'⟩
    simp only [List.cons_append, lookupField]
    split
    · rfl
    · exact ih

/-- Lookup in the merged-onto-target fields: a target key survives, and
carries the recursive merge exactly when the source also has the key. -/
theorem lookupField_mergeFields (o s : List (String × JValue)) (k : String) :
    lookupField (mergeFields o s) k =
      match lookupField o k with
      | none => none
      | some v =>
        some (match lookupField s k with
              | some sv => mergeVal v sv
              | none => v) := by
  induction o with
  | nil => rfl
  | cons kv rest ih =>
    rcases kv with ⟨k', v'⟩
    by_cases hk : k' = k
    · subst hk
      simp [mergeFields, lookupField]
    · simp only [mergeFields, lookupField, if_neg hk]
      exact ih

/-- Lookup among the appended new fields: hits exactly the source keys the
target lacks. -/
theorem lookupField_newFields (o s : List (String × JValue)) (k : String) :
    lookupField (newFields o s) k =
      match lookupField o k with
      | some _ => none
      | none => lookupField s k := by
  induction s with
  | nil =>
    cases lookupField o k <;> rfl
  | cons kv rest ih =>
    rcases kv with ⟨k', v'⟩
    simp only [newFields, List.filter_cons] at ih ⊢
    by_cases hk : k' = k
    · subst hk
      cases ho : lookupField o k'
      · simp [ho, lookupField]
      · simp only [ho, Option.isNone_some, Bool.false_eq_true, if_false]
        rw [ih, ho]
    · cases ho : (lookupField o k').isNone
      · simp only [ho, Bool.false_eq_true, if_false]
        rw [ih]
        cases lookupField o k <;> simp [lookupField, hk]
      · simp only [ho, if_true, lookupField, if_neg hk]
        rw [ih]

/-- The full key-wise characterization of `lodash.merge` on two plain
objects: on a shared key the merge recurses (the later source winning on
leaves), a key present on one side only is preserved. -/
theorem lookupField_mergeObj (o s : List (String × JValue)) (k : String) :
    lookupField (mergeFields o s ++ newFields o s) k =
      match lookupField o k, lookupField s k with
      | some vo, some vs => some (mergeVal vo vs)
      | some vo, none => some vo
      | none, some vs => some vs
      | none, none => none := by
  rw [lookupField_append, lookupField_mergeFields, lookupField_newFields]
  cases lookupField o k <;> cases lookupField s k <;> rfl

/-! ## Claim theorems -/

/-- C1 (amended): every input whose resolved segments stay at or below the
root is accepted and yields an absolute path that is the root itself or
sits under it beyond a path separator; but escape detection is only the
string-prefix test of line 38, so an input is rejected exactly when its
resolved path does not extend the root string — a sibling directory whose
name extends the root's last segment slips through (see the
counterexample). -/
theorem resolveSafePath_containment (base : List String) (input : String) :
    (base.isPrefixOf (resolvePathSegs base input) = true →
      resolveSafePath base input =
          Except.ok (renderAbs (resolvePathSegs base input)) ∧
        (renderAbs (resolvePathSegs base input) = renderAbs base ∨
          jsStartsWith (renderAbs (resolvePathSegs base input))
            (renderAbs base ++ "/") = true)) ∧
    (jsStartsWith (renderAbs (resolvePathSegs base input)) (renderAbs base)
        = false →
      resolveSafePath base input = Except.error securityViolationMsg) := by
  constructor
  · intro h
    rw [List.isPrefixOf_iff_prefix] at h
    obtain ⟨r, hr⟩ := h
    constructor
    · rw [resolveSafePath_ok_iff]
      refine ⟨?_, rfl⟩
      rw [← hr, renderAbs_append]
      exact jsStartsWith_append (renderAbs base) (renderAbs r)
    · rw [← hr, renderAbs_append]
      cases r with
      | nil =>
        left
        show renderAbs base ++ renderAbs [] = renderAbs base
        exact String.append_empty (renderAbs base)
      | cons x xs =>
        right
        rw [renderAbs_cons, ← String.append_assoc, ← String.append_assoc]
        rw [String.append_assoc (renderAbs base ++ "/")]
        exact jsStartsWith_append (renderAbs base ++ "/") (x ++ renderAbs xs)
  · intro h
    simp [resolveSafePath, h]

/-- C1 witness: a nested relative path inside the data root is accepted
and resolves under the root; a traversal to `/etc/passwd` is rejected. -/
theorem resolveSafePath_containment_witness :
    resolveSafePath STORAGE_data "sub/file.json" =
        Except.ok "/app/storage/data/sub/file.json" ∧
      resolveSafePath STORAGE_data "../../../etc/passwd" =
        Except.error securityViolationMsg :=
  ⟨((resolveSafePath_containment STORAGE_data "sub/file.json").1 rfl).1,
    (resolveSafePath_containment STORAGE_data "../../../etc/passwd").2 rfl⟩

/-- C1 counterexample: the traversal `../data-other` resolves OUTSIDE the
data root `/app/storage/data` (its segments are not an extension of the
root's), yet `resolveSafePath` accepts it, because the sibling directory's
path extends the root as a plain string.  The claim's "every traversal
resolving outside the root fails with SecurityViolation" is false of the
code. -/
theorem resolveSafePath_sibling_escape :
    resolveSafePath STORAGE_data "../data-other" =
        Except.ok "/app/storage/data-other" ∧
      STORAGE_data.isPrefixOf (resolvePathSegs STORAGE_data "../data-other")
          = false :=
  ⟨rfl, rfl⟩

/-- Index-wise merged arrays have the longer input's length (nothing is
concatenated, nothing truncated). -/
theorem mergeElems_length :
    ∀ o s : List JValue, (mergeElems o s).length = max o.length s.length := by
  intro o
  induction o with
  | nil =>
    intro s
    cases s <;> simp [mergeElems]
  | cons ov orest ih =>
    intro s
    cases s with
    | nil => simp [mergeElems]
    | cons sv srest =>
      simp [mergeElems, ih srest]
      omega

/-- C2 counterexample: folding the two array-valued sources through the
engine's merge loop yields `{a: [3, 2]}` — lodash.merge combines the
arrays index-wise — and `{a: [3, 2]}` differs from the claimed wholesale
replacement `{a: [3]}`. -/
theorem mergeDataSources_array_cex :
    mergeDataSources envMerge
        [⟨some "arr1.json", none⟩, ⟨some "arr2.json", none⟩] =
        Except.ok (JValue.obj [("a", JValue.arr [JValue.num 3, JValue.num 2])]) ∧
      beqJ (JValue.obj [("a", JValue.arr [JValue.num 3, JValue.num 2])])
          (JValue.obj [("a", JValue.arr [JValue.num 3])]) = false :=
  ⟨rfl, rfl⟩

/-- C2 (amended): when two sources assign arrays to the same key the deep
merge combines them INDEX-wise — the later source's entries land at their
indices and surplus earlier entries survive — so `[{a:[1,2]}, {a:[3]}]`
merges to `{a:[3,2]}`, not `{a:[3]}`; the merged array's length is the
longer input's, never the sum; scalar conflicts are replaced outright by
the later value. -/
theorem mergeDataSources_array_semantics :
    mergeDataSources envMerge
        [⟨some "arr1.json", none⟩, ⟨some "arr2.json", none⟩] =
        Except.ok (JValue.obj [("a", JValue.arr [JValue.num 3, JValue.num 2])]) ∧
      (∀ o s : List JValue,
        (mergeElems o s).length = max o.length s.length) ∧
      (∀ (v : JValue) (n : Int), mergeVal v (JValue.num n) = JValue.num n) ∧
      (∀ (v : JValue) (s : String), mergeVal v (JValue.str s) = JValue.str s) :=
  ⟨rfl, mergeElems_length,
    fun v n => by cases v <;> rfl,
    fun v s => by cases v <;> rfl⟩

/-- C8: the merge is right-biased and recursive on plain mappings.
Concretely `[{a:1}, {a:2}]` merges to `{a:2}` and `[{a:{x:1}}, {a:{y:2}}]`
to `{a:{x:1, y:2}}`; in general, on two objects the merged mapping binds a
shared key to the recursive merge of both values (the later source winning
on leaves), keeps a target-only key's value, and adopts a source-only
key's value. -/
theorem mergeDataSources_right_bias :
    mergeDataSources envMerge [⟨some "s1.json", none⟩, ⟨some "s2.json", none⟩]
        = Except.ok (JValue.obj [("a", JValue.num 2)]) ∧
      mergeDataSources envMerge
          [⟨some "n1.json", none⟩, ⟨some "n2.json", none⟩] =
        Except.ok (JValue.obj
          [("a", JValue.obj [("x", JValue.num 1), ("y", JValue.num 2)])]) ∧
      (∀ o s : List (String × JValue),
        mergeVal (JValue.obj o) (JValue.obj s) =
          JValue.obj (mergeFields o s ++ newFields o s)) ∧
      (∀ (o s : List (String × JValue)) (k : String),
        lookupField (mergeFields o s ++ newFields o s) k =
          match lookupField o k, lookupField s k with
          | some vo, some vs => some (mergeVal vo vs)
          | some vo, none => some vo
          | none, some vs => some vs
          | none, none => none) :=
  ⟨rfl, rfl, fun o s => rfl, lookupField_mergeObj⟩

/-- C5 counterexample: a module carrying BOTH a (present, but null, hence
falsy) default export and a named App export renders via `App`, not via
its default export — line 153's `||` chain probes truthiness, not
presence. -/
theorem resolveApp_present_default_cex :
    resolveApp (JSVal.obj [("default", JSVal.jsNull), ("App", JSVal.func 1)])
        = JSVal.func 1 ∧
      beqJS (getProp (JSVal.obj
          [("default", JSVal.jsNull), ("App", JSVal.func 1)]) "default")
          JSVal.undef = false ∧
      beqJS (resolveApp (JSVal.obj
          [("default", JSVal.jsNull), ("App", JSVal.func 1)]))
          (getProp (JSVal.obj
            [("default", JSVal.jsNull), ("App", JSVal.func 1)]) "default")
          = false :=
  ⟨rfl, rfl, rfl⟩

/-- C5 (amended): the renderable is resolved in the fixed priority order
default export, then named `App` export, then the module value itself, but
each step is taken on TRUTHINESS rather than presence; in particular a
module whose default export is truthy — as every real component is —
renders via its default export even when a named `App` export is also
present. -/
theorem resolveApp_truthy_default (c : JSVal)
    (h : truthyJS (getProp c "default") = true) :
    resolveApp c = getProp c "default" := by
  simp [resolveApp, h]

/-- C5 witness: with both exports present and the default truthy, the
default is selected. -/
theorem resolveApp_truthy_default_witness :
    resolveApp (JSVal.obj [("default", JSVal.func 0), ("App", JSVal.func 1)])
        = JSVal.func 0 :=
  (resolveApp_truthy_default
    (JSVal.obj [("default", JSVal.func 0), ("App", JSVal.func 1)]) rfl).trans
    rfl

/-- C10: a present-but-falsy default export is skipped: the build renders
the named `App` export when that is truthy, and the whole module value
itself otherwise. -/
theorem resolveApp_falsy_default (c : JSVal)
    (hpresent : beqJS (getProp c "default") JSVal.undef = false)
    (hfalsy : truthyJS (getProp c "default") = false) :
    (truthyJS (getProp c "App") = true → resolveApp c = getProp c "App") ∧
      (truthyJS (getProp c "App") = false → resolveApp c = c) := by
  constructor <;> intro h2 <;> simp [resolveApp, hfalsy, h2]

/-- C10 witness: default export `false` (present, falsy) falls through to
the truthy `App` export. -/
theorem resolveApp_falsy_default_witness :
    resolveApp (JSVal.obj [("default", JSVal.bool false), ("App", JSVal.func 2)])
        = JSVal.func 2 :=
  ((resolveApp_falsy_default
      (JSVal.obj [("default", JSVal.bool false), ("App", JSVal.func 2)])
      rfl rfl).1 rfl).trans rfl

/-- C6: a build that fails — at data resolution, data read, template
sandbox-resolution or load, render, minify, or output-path sandboxing —
leaves the output tree untouched: writing is the last step of
`performBuild`, so an error outcome carries the incoming output tree
unchanged. -/
theorem performBuild_error_no_output (env : Env) (st : SystemState)
    (tp : String) (ds : List DataSourceSpec) (out e : String)
    (st' : SystemState)
    (h : performBuild env st tp ds out = (Except.error e, st')) :
    st'.outputFS = st.outputFS := by
  simp only [performBuild] at h
  repeat' split at h
  all_goals simp only [Prod.mk.injEq] at h
  all_goals obtain ⟨h1, h2⟩ := h
  all_goals subst h2
  all_goals first
  | rfl
  | exact absurd h1 (by simp)

/-- C6 witness: a build whose lone data file is missing fails and leaves
the (empty) output tree exactly as it was. -/
theorem performBuild_error_no_output_witness :
    (performBuild envMissing initState "t.jsx" [⟨some "missing.json", none⟩]
        "out").2.outputFS = initState.outputFS :=
  performBuild_error_no_output envMissing initState "t.jsx"
    [⟨some "missing.json", none⟩] "out" "ENOENT: no such file or directory"
    (performBuild envMissing initState "t.jsx" [⟨some "missing.json", none⟩]
      "out").2 rfl

/-- C7: a successful build returns its normalized output path: unchanged
when the requested relative path already ends in `.html`, and with the
fixed file name `index.html` joined inside it otherwise. -/
theorem performBuild_output_normalization (env : Env) (st : SystemState)
    (tp : String) (ds : List DataSourceSpec) (out r : String)
    (st' : SystemState)
    (h : performBuild env st tp ds out = (Except.ok r, st')) :
    r = normalizeOutputPath out ∧
      (jsEndsWith out ".html" = true → r = out) ∧
      (jsEndsWith out ".html" = false → r = joinPath out "index.html") := by
  have hr : r = normalizeOutputPath out := by
    simp only [performBuild] at h
    repeat' split at h
    all_goals simp only [Prod.mk.injEq] at h
    all_goals first
    | exact (Except.ok.inj h.1).symm
    | exact absurd h.1 (by simp)
  refine ⟨hr, ?_, ?_⟩ <;> intro hcase <;> rw [hr] <;>
    simp [normalizeOutputPath, hcase]

/-- C7 witness: the directory target `"reports"` is normalized to
`"reports/index.html"` and reported as the build's result. -/
theorem performBuild_output_normalization_witness :
    "reports/index.html" = normalizeOutputPath "reports" :=
  (performBuild_output_normalization envOk initState "t.jsx" [] "reports"
    "reports/index.html"
    (performBuild envOk initState "t.jsx" [] "reports").2 rfl).1

/-- C4: hot reload.  Whatever a previous build in the same process loaded
and cached (state `st1`, produced by building under the old disk contents
`env1`), a rebuild sees the template file's CURRENT contents: the
invalidation of lines 138-140 removes every cached module under the
template root before the load, the sandbox guarantees the template path
lies under that root, so the build renders the freshly loaded module `v2`
and writes exactly the artifact derived from it. -/
theorem performBuild_hot_reload (env1 env2 : Env) (st0 : SystemState)
    (tp : String) (ds : List DataSourceSpec) (out p : String) (v2 : JSVal)
    (props : JValue) (html mini outAbs : String)
    (r1 : Except String String) (st1 : SystemState)
    (hfirst : performBuild env1 st0 tp ds out = (r1, st1))
    (hp : resolveSafePath STORAGE_templates tp = Except.ok p)
    (hv2 : env2.templates p = Except.ok v2)
    (hprops : mergeDataSources env2 ds = Except.ok props)
    (hrender : env2.render (resolveApp v2) props = Except.ok html)
    (hmin : env2.minify html = Except.ok mini)
    (hout : resolveSafePath STORAGE_output (normalizeOutputPath out)
      = Except.ok outAbs) :
    (performBuild env2 st1 tp ds out).1 = Except.ok (normalizeOutputPath out) ∧
      (performBuild env2 st1 tp ds out).2.outputFS outAbs = some mini := by
  have hs : jsStartsWith p templatesRootStr = true :=
    resolveSafePath_ok_startsWith hp
  simp only [performBuild, hprops, hp,
    requireModule_fresh env2 st1.requireCache p hs, hv2, hrender, hmin, hout]
  simp [writeFS]

/-- C4 witness: build `t.jsx` while it holds V1, overwrite it with V2,
rebuild in the same process: the output file holds the V2 rendering. -/
theorem performBuild_hot_reload_witness :
    (performBuild envV2
        ((performBuild envV1 initState "t.jsx" [] "page.html").2)
        "t.jsx" [] "page.html").2.outputFS "/app/storage/output/page.html"
      = some "V2" :=
  (performBuild_hot_reload envV1 envV2 initState "t.jsx" [] "page.html"
    "/app/storage/templates/t.jsx" (JSVal.str "V2") (JValue.obj []) "V2" "V2"
    "/app/storage/output/page.html"
    (performBuild envV1 initState "t.jsx" [] "page.html").1
    (performBuild envV1 initState "t.jsx" [] "page.html").2
    rfl rfl rfl rfl rfl rfl rfl).2

/-- C3: batch isolation.  When the data folder resolves and lists, the
call returns exactly one result per listed name ending in `.json`, in
listing order, each carrying its file name; the number marked `error`
equals the number of files whose individual build pipeline fails, the
remainder are marked `success` (statuses are binary, so the two counts
split the total); no item's failure disturbs the later items, since every
item's recorded outcome is its build's outcome.  When the folder cannot be
resolved or listed the failure escapes as the call's own (the error arms
of `runBatchBuild`). -/
theorem runBatchBuild_isolation (env : Env) (st : SystemState)
    (tp df ob dir : String) (files : List String)
    (h1 : resolveSafePath STORAGE_data df = Except.ok dir)
    (h2 : env.readdir dir = Except.ok files) :
    ∀ rs, rs = (files.filter (fun f => jsEndsWith f ".json")).map
        (itemOf env tp df ob) →
      (runBatchBuild env st tp df ob).1 = Except.ok rs ∧
        rs.length = (files.filter (fun f => jsEndsWith f ".json")).length ∧
        rs.map (fun it => it.file) =
          files.filter (fun f => jsEndsWith f ".json") ∧
        rs.countP (fun it => it.status == "error") =
          (files.filter (fun f => jsEndsWith f ".json")).countP
            (fun f => (itemOf env tp df ob f).status == "error") ∧
        rs.countP (fun it => it.status == "success") +
            rs.countP (fun it => it.status == "error") = rs.length := by
  intro rs hrs
  subst hrs
  refine ⟨runBatchBuild_ok_fst env st tp df ob dir files h1 h2,
    List.length_map _ _, ?_, ?_, ?_⟩
  · rw [List.map_map]
    rw [show ((fun it => it.file) ∘ itemOf env tp df ob) = id from
      funext (itemOf_file env tp df ob)]
    exact List.map_id _
  · rw [List.countP_map]
    rfl
  · apply countP_status_split
    intro it hit
    rw [List.mem_map] at hit
    obtain ⟨f, _, rfl⟩ := hit
    exact itemOf_status env tp df ob f

/-- C3 witness: a folder listing two JSON files (one malformed) and one
non-JSON entry yields exactly two ordered results — a success then an
error carrying the parse failure's message — and the call itself
succeeds. -/
theorem runBatchBuild_isolation_witness :
    (runBatchBuild envBatch initState "t.jsx" "batch" "out").1 =
      Except.ok [mkSuccess "good.json" "out/good/index.html",
        mkError "bad.json" "Unexpected token in JSON"] :=
  (runBatchBuild_isolation envBatch initState "t.jsx" "batch" "out"
    "/app/storage/data/batch" ["good.json", "bad.json", "notes.txt"] rfl rfl
    ((["good.json", "bad.json", "notes.txt"].filter
        (fun f => jsEndsWith f ".json")).map
      (itemOf envBatch "t.jsx" "batch" "out")) rfl).1

/-- C9 (amended): each discovered file is built with exactly one synthetic
data source `{filename: dataFolder/file}` and no key, into the output path
`outputBase` joined with the file name with its FIRST occurrence of
`".json"` removed (`String.replace` with a string pattern replaces the
first occurrence, which equals stripping the extension exactly when
`".json"` occurs only as the suffix): the batch item at index `i` is the
outcome of that standalone single build. -/
theorem runBatchBuild_item_params (env : Env) (st : SystemState)
    (tp df ob dir : String) (files : List String) (i : Nat) (f : String)
    (h1 : resolveSafePath STORAGE_data df = Except.ok dir)
    (h2 : env.readdir dir = Except.ok files)
    (h3 : (files.filter (fun g => jsEndsWith g ".json"))[i]? = some f) :
    ∀ got, (runBatchBuild env st tp df ob).1 = Except.ok got →
      got[i]? = some (match (performBuild env initState tp
          [⟨some (joinPath df f), none⟩]
          (joinPath ob (replaceFirst f ".json" ""))).1 with
        | Except.ok p => mkSuccess f p
        | Except.error e => mkError f e) := by
  intro got hgot
  rw [runBatchBuild_ok_fst env st tp df ob dir files h1 h2] at hgot
  have hm := Except.ok.inj hgot
  rw [← hm, List.getElem?_map, h3, Option.map_some']
  rw [itemOf, batchStep_fst_eq]

/-- C9 witness: the malformed file of the witness folder sits at index 1
of the report, recorded as the outcome of its standalone single-source
build. -/
theorem runBatchBuild_item_params_witness :
    ([mkSuccess "good.json" "out/good/index.html",
        mkError "bad.json" "Unexpected token in JSON"] : List BatchItem)[1]? =
      some (mkError "bad.json" "Unexpected token in JSON") :=
  runBatchBuild_item_params envBatch initState "t.jsx" "batch" "out"
    "/app/storage/data/batch" ["good.json", "bad.json", "notes.txt"] 1
    "bad.json" rfl rfl rfl
    [mkSuccess "good.json" "out/good/index.html",
      mkError "bad.json" "Unexpected token in JSON"] rfl

/-- C9 counterexample: for the file `a.jsonb.json` the code removes the
FIRST `".json"` occurrence, deriving output folder `out/ab.json`, whereas
stripping the extension would give `out/a.jsonb`: the claim's "base name
with its extension stripped" is false of the code. -/
theorem runBatchBuild_inner_json_cex :
    (runBatchBuild envInner initState "t.jsx" "b9" "out").1 =
        Except.ok [mkSuccess "a.jsonb.json" "out/ab.json/index.html"] ∧
      (("out/ab.json/index.html" : String) == "out/a.jsonb/index.html")
          = false :=
  ⟨rfl, rfl⟩
